import Mathlib

/-!
Verification of `import_plays_to_sqlite.py`: a CSV-to-SQLite importer whose
core logic is the all-or-nothing numeric coercion heuristic
(`coerce_numeric_columns`), a dtype-refinement pass, and a writer/verifier
(`write_sqlite` / `main`).  The dataframe is embedded as an ordered list of
named, typed columns of cells; the SQLite side as an association list of
tables in a file system model.
-/

/-- A Python/pandas numeric value: either an `int` or a `float`.
Floats are modelled as rationals (the numeric literals the importer meets
are decimal literals, which are exact rationals). -/
inductive PyNum where
  | intv (n : Int)
  | floatv (q : Rat)
deriving DecidableEq, Repr

/-- Numeric value of a `PyNum` as a rational. -/
def PyNum.toRat : PyNum → Rat
  | .intv n => (n : Rat)
  | .floatv q => q

/-- One cell of a dataframe column: missing (NaN/NA), a string, a number,
or a boolean. -/
inductive Cell where
  | missing
  | str (s : String)
  | num (v : PyNum)
  | bool (b : Bool)
deriving DecidableEq, Repr

/-- Pandas dtypes relevant to this program: `object` (generic cells, what
`read_csv` gives a textual column), `text` (the nullable string dtype),
`int64`, `float64`, and `boolean`. -/
inductive Dtype where
  | object
  | text
  | int64
  | float64
  | boolean
deriving DecidableEq, Repr

/-- A named column: dtype plus the ordered cells. -/
structure Column where
  name : String
  dtype : Dtype
  cells : List Cell
deriving DecidableEq, Repr

/-- A dataframe is the ordered list of its columns. -/
abbrev DataFrame := List Column

/-- `pd.api.types.is_object_dtype(s) or pd.api.types.is_string_dtype(s)`:
the dtypes whose columns the coercion pass examines. -/
def isTextualDtype : Dtype → Bool
  | .object => true
  | .text => true
  | _ => false

/-- The `non_null` mask of `coerce_numeric_columns`:
`s.notna() & (s.astype(str).str.len() > 0)` — the cell is not missing and
its string form is non-empty. -/
def nonNullNonEmpty : Cell → Bool
  | .missing => false
  | .str s => decide (0 < s.length)
  | .num _ => true
  | .bool _ => true

/-- Numeric value of a digit character. -/
def digitVal (c : Char) : Nat := c.toNat - 48

/-- Split a character list into its leading run of decimal digits and the
rest. -/
def takeDigits : List Char → List Char × List Char
  | [] => ([], [])
  | c :: cs =>
    if c.isDigit then
      let p := takeDigits cs
      (c :: p.1, p.2)
    else
      ([], c :: cs)

/-- Value of a digit run read in base 10. -/
def digitsToNat (ds : List Char) : Nat :=
  ds.foldl (fun a c => a * 10 + digitVal c) 0

/-- Parse the optional exponent tail of a numeric literal: either nothing,
or `e`/`E`, an optional sign, and a non-empty digit run consuming the rest
of the input. -/
def parseExpTail : List Char → Option Int
  | [] => some 0
  | c :: cs =>
    if c == 'e' || c == 'E' then
      let sp : Int × List Char :=
        match cs with
        | '+' :: t => (1, t)
        | '-' :: t => (-1, t)
        | t => (1, t)
      let dp := takeDigits sp.2
      if dp.1.isEmpty || !dp.2.isEmpty then none
      else some (sp.1 * (digitsToNat dp.1 : Int))
    else none

/-- Modelled from the spec: the numeric parsing performed by the dataframe
library's `pd.to_numeric` (third-party code, not part of this repository) —
"attempt to parse each as a number (integer or floating-point, accepting
standard numeric literal syntax including optional sign, decimal point,
exponent)".  An integer literal (digits only, no point, no exponent) yields
an `int`; any literal with a decimal point or exponent yields a `float`. -/
def parseNumLit (s : String) : Option PyNum :=
  let sp : Int × List Char :=
    match s.data with
    | '+' :: t => (1, t)
    | '-' :: t => (-1, t)
    | t => (1, t)
  let ip := takeDigits sp.2
  match ip.2 with
  | [] =>
    if ip.1.isEmpty then none
    else some (.intv (sp.1 * (digitsToNat ip.1 : Int)))
  | '.' :: r2 =>
    let fp := takeDigits r2
    if ip.1.isEmpty && fp.1.isEmpty then none
    else
      let mant : Rat :=
        (digitsToNat ip.1 : Rat) + (digitsToNat fp.1 : Rat) / ((10 : Rat) ^ fp.1.length)
      match parseExpTail fp.2 with
      | none => none
      | some e => some (.floatv ((sp.1 : Rat) * mant * (10 : Rat) ^ e))
  | _ =>
    if ip.1.isEmpty then none
    else
      match parseExpTail ip.2 with
      | none => none
      | some e => some (.floatv ((sp.1 : Rat) * (digitsToNat ip.1 : Rat) * (10 : Rat) ^ e))

/-- `pd.to_numeric` on one cell: `none` is NaN (the `errors="coerce"`
outcome for an unparseable cell). -/
def toNumericCell : Cell → Option PyNum
  | .missing => none
  | .str s => parseNumLit s
  | .num v => some v
  | .bool b => some (.intv (if b then 1 else 0))

/-- The converted cell: a parsed number, or NaN. -/
def coerceCell (c : Cell) : Cell :=
  match toNumericCell c with
  | some v => .num v
  | none => .missing

/-- Is this converted cell a non-missing `int`? (`pd.to_numeric` returns an
`int64` series exactly when every cell converts to an int and none is NaN.) -/
def cellIsIntCell : Cell → Bool
  | .num (.intv _) => true
  | _ => false

/-- Widen a converted cell to `float` (a `float64` series holds floats). -/
def floatify : Cell → Cell
  | .num v => .num (.floatv v.toRat)
  | c => c

/-- Does the whole column convert: every non-null, non-empty cell parses?
(`converted[non_null].notna().all()`.) -/
def countedAllParse (col : Column) : Bool :=
  col.cells.all (fun c => !nonNullNonEmpty c || (toNumericCell c).isSome)

/-- `non_null.any()`: the column has at least one non-missing, non-empty
cell. -/
def hasCounted (col : Column) : Bool :=
  col.cells.any nonNullNonEmpty

/-- The per-column body of `coerce_numeric_columns`: for an object/string
column with at least one non-null non-empty cell, convert with
`pd.to_numeric(errors="coerce")` and adopt the conversion iff every
originally non-null non-empty cell converted to a number; otherwise leave
the column untouched. -/
def coerceColumn (col : Column) : Column :=
  if isTextualDtype col.dtype then
    if hasCounted col then
      if countedAllParse col then
        let converted := col.cells.map coerceCell
        if converted.all cellIsIntCell then
          { col with dtype := .int64, cells := converted }
        else
          { col with dtype := .float64, cells := converted.map floatify }
      else col
    else col
  else col

/-- Is the cell compatible with an integer column: missing, or an
integer-valued number? -/
def cellIsIntValued : Cell → Bool
  | .missing => true
  | .num v => v.toRat.den == 1
  | _ => false

/-- Narrow an integer-valued number to an `int` (the value is unchanged). -/
def intifyCell : Cell → Cell
  | .num v => .num (.intv v.toRat.num)
  | c => c

/-- Modelled from the spec: the dataframe library's `convert_dtypes`
refinement (third-party code, not part of this repository) — "narrows any
column that now holds only integer-valued numbers to an integer type, only
fractional values to a floating-point type, and columns of … boolean-like
… values to boolean", conservative and deterministic. -/
def refineColumn (col : Column) : Column :=
  match col.dtype with
  | .float64 =>
    if col.cells.all cellIsIntValued then
      { col with dtype := .int64, cells := col.cells.map intifyCell }
    else col
  | .object =>
    if col.cells.all (fun c => match c with
        | .missing => true | .bool _ => true | _ => false)
       && col.cells.any (fun c => match c with
        | .bool _ => true | _ => false) then
      { col with dtype := .boolean }
    else if col.cells.all (fun c => match c with
        | .missing => true | .str _ => true | _ => false) then
      { col with dtype := .text }
    else col
  | _ => col

/-- `coerce_numeric_columns`: the per-column coercion pass followed by the
dtype refinement (`df.convert_dtypes()`). -/
def coerce_numeric_columns (df : DataFrame) : DataFrame :=
  (df.map coerceColumn).map refineColumn

/-- SQLite storage classes used by the writer. -/
inductive SqlType where
  | integer
  | real
  | text
deriving DecidableEq, Repr

/-- SQLite values as stored in a table. -/
inductive SqlValue where
  | null
  | intv (n : Int)
  | realv (q : Rat)
  | textv (s : String)
deriving DecidableEq, Repr

/-- Modelled from the spec: the storage-class mapping applied by the
dataframe library's `to_sql` (third-party code, not part of this
repository) — "integer→integer storage class, floating-point→real storage
class, text/boolean/unset→text or its nearest equivalent". -/
def sqlTypeOfDtype : Dtype → SqlType
  | .int64 => .integer
  | .float64 => .real
  | _ => .text

/-- Modelled from the spec: the cell-to-storage mapping of `to_sql` — it
"maps missing cells to a null marker"; non-missing cells keep their value
in the column's storage class. -/
def sqlValueOfCell : Cell → SqlValue
  | .missing => .null
  | .num (.intv n) => .intv n
  | .num (.floatv q) => .realv q
  | .str s => .textv s
  | .bool b => .textv (if b then "True" else "False")

/-- One SQLite table: the declared schema (name and storage class per
column, in order) and the rows. -/
structure SqliteTable where
  schema : List (String × SqlType)
  rows : List (List SqlValue)
deriving DecidableEq, Repr

/-- Row count of a dataframe (`len(df)`): the length of its columns (the
row count is uniform across columns). -/
def dfRowCount (df : DataFrame) : Nat :=
  match df with
  | [] => 0
  | c :: _ => c.cells.length

/-- The table `df.to_sql(..., index=False)` creates: one schema entry per
column in dataframe order, and one row per row index. -/
def mkTable (df : DataFrame) : SqliteTable :=
  { schema := df.map (fun c => (c.name, sqlTypeOfDtype c.dtype)),
    rows := (List.range (dfRowCount df)).map
      (fun i => df.map (fun c => sqlValueOfCell (c.cells.getD i .missing))) }

/-- A SQLite database file: its tables by name. -/
abbrev Db := List (String × SqliteTable)

/-- Look up a table by name. -/
def getTable (db : Db) (t : String) : Option SqliteTable :=
  (db.find? (fun e => e.1 == t)).map Prod.snd

/-- `if_exists="replace"`: drop any existing table of that name and create
the new one. -/
def setTable (db : Db) (t : String) (tbl : SqliteTable) : Db :=
  (t, tbl) :: db.filter (fun e => !(e.1 == t))

/-- The file system as the writer sees it: the set of existing directories
and the database files by path. -/
structure FS where
  dirs : List String
  dbs : List (String × Db)
deriving DecidableEq, Repr

/-- `os.path.dirname`: everything before the last `/` (empty when the path
has no `/`). -/
def dirname (p : String) : String :=
  String.intercalate "/" (p.splitOn "/").dropLast

/-- `os.path.dirname(db_path) or "."`: the directory `write_sqlite` makes. -/
def makedirsTarget (p : String) : String :=
  if dirname p = "" then "." else dirname p

/-- The proper ancestor prefixes of a `/`-separated path. -/
def ancestorDirs (p : String) : List String :=
  (List.range (p.splitOn "/").length).map
    (fun i => String.intercalate "/" ((p.splitOn "/").take (i + 1)))

/-- `os.makedirs(p, exist_ok=True)`: afterwards `p` and all its ancestors
exist; directories already present are untouched. -/
def makedirs (fs : FS) (p : String) : FS :=
  { fs with dirs := p :: ancestorDirs p ++ fs.dirs }

/-- `sqlite3.connect` succeeds when the destination's parent directory
exists. -/
def connectOk (fs : FS) (dbPath : String) : Bool :=
  fs.dirs.contains (makedirsTarget dbPath)

/-- Contents of a database file (a fresh path is an empty database, as
`sqlite3.connect` creates the file). -/
def getDb (fs : FS) (p : String) : Db :=
  ((fs.dbs.find? (fun e => e.1 == p)).map Prod.snd).getD []

/-- Store a database file at a path. -/
def setDb (fs : FS) (p : String) (db : Db) : FS :=
  { fs with dbs := (p, db) :: fs.dbs.filter (fun e => !(e.1 == p)) }

/-- `write_sqlite`: make the destination's parent directories, connect,
and bulk-write the dataframe as one table with replace semantics.  `none`
models an uncaught failure to open the destination. -/
def write_sqlite (fs : FS) (df : DataFrame) (dbPath tableName : String) : Option FS :=
  let fs1 := makedirs fs (makedirsTarget dbPath)
  if connectOk fs1 dbPath then
    some (setDb fs1 dbPath (setTable (getDb fs1 dbPath) tableName (mkTable df)))
  else none

/-- The command-line arguments of `main` with their defaults. -/
structure Args where
  csv_path : String
  db_path : String
  table_name : String
deriving DecidableEq, Repr

/-- The argparse defaults. -/
def defaultArgs : Args :=
  { csv_path := "team_data_combined/plays.csv", db_path := "plays.db", table_name := "plays" }

/-- The world `main` runs in: the CSV files (already parsed by `read_csv`
into raw dataframes of object columns) and the file system. -/
structure World where
  csvs : List (String × DataFrame)
  fs : FS
deriving DecidableEq, Repr

/-- `os.path.exists(args.csv_path)`. -/
def pathExists (w : World) (p : String) : Bool :=
  (w.csvs.find? (fun e => e.1 == p)).isSome

/-- `load_csv`: read the CSV into a dataframe and coerce its columns. -/
def load_csv (w : World) (p : String) : DataFrame :=
  coerce_numeric_columns (((w.csvs.find? (fun e => e.1 == p)).map Prod.snd).getD [])

/-- Outcome of one run of `main`: the process exit code and the resulting
file system. -/
structure RunResult where
  exitCode : Nat
  fs : FS
deriving DecidableEq, Repr

/-- `main` of the importer (as `mainRun`): check the input exists (`raise SystemExit(msg)` exits with
code 1 before anything is written), load and coerce the CSV, write the
SQLite table, then verify; an uncaught write failure aborts with a
non-zero code. -/
def mainRun (w : World) (args : Args) : RunResult :=
  if pathExists w args.csv_path then
    match write_sqlite w.fs (load_csv w args.csv_path) args.db_path args.table_name with
    | some fs1 => { exitCode := 0, fs := fs1 }
    | none => { exitCode := 1, fs := w.fs }
  else
    { exitCode := 1, fs := w.fs }

/-- Column names of a table's declared schema, in order (`PRAGMA
table_info`). -/
def tableColNames (t : SqliteTable) : List String :=
  t.schema.map Prod.fst

/-- `SELECT COUNT(*)`: the table's row count. -/
def tableRowCount (t : SqliteTable) : Nat :=
  t.rows.length

/-- A heap of dataframe objects, for stating that `coerce_numeric_columns`
does not mutate its argument: slots are dataframes, a Python variable is a
slot index. -/
structure Heap where
  dfs : List DataFrame
deriving DecidableEq, Repr

/-- `df.copy()`: allocate a fresh slot holding a copy of slot `i`. -/
def dfCopy (h : Heap) (i : Nat) : Heap × Nat :=
  (⟨h.dfs ++ [h.dfs.getD i []]⟩, h.dfs.length)

/-- Overwrite slot `j`. -/
def heapSet (h : Heap) (j : Nat) (df : DataFrame) : Heap :=
  ⟨h.dfs.set j df⟩

/-- `coerce_numeric_columns` as it acts on the heap: it copies the argument
at slot `i`, performs all its column assignments and the `convert_dtypes`
rebinding on the copy's slot only, and returns that slot. -/
def coerceProg (h : Heap) (i : Nat) : Heap × Nat :=
  let p := dfCopy h i
  (heapSet p.1 p.2 (coerce_numeric_columns (p.1.dfs.getD p.2 [])), p.2)

/-- Numeric dtypes: the types a column adopts when the coercion succeeds. -/
def isNumericDtype : Dtype → Bool
  | .int64 => true
  | .float64 => true
  | _ => false

/-- Is the cell's value compatible with the column dtype?  `object` accepts
anything; a missing cell is compatible with every dtype. -/
def cellCompat (d : Dtype) (c : Cell) : Bool :=
  match d, c with
  | _, .missing => true
  | .object, _ => true
  | .text, .str _ => true
  | .int64, .num v => v.toRat.den == 1
  | .float64, .num _ => true
  | .boolean, .bool _ => true
  | _, _ => false

/-- A column is well typed when every cell is compatible with its dtype. -/
def colWellTyped (col : Column) : Bool :=
  col.cells.all (cellCompat col.dtype)

/-! ## Helper lemmas -/

theorem str_eq_empty_of_length_zero (s : String) (h : s.length = 0) : s = "" := by
  cases s with
  | mk data =>
    cases data with
    | nil => rfl
    | cons c cs => simp [String.length] at h

theorem toNumericCell_eq_none_of_not_counted (c : Cell)
    (h : nonNullNonEmpty c = false) : toNumericCell c = none := by
  cases c with
  | missing => rfl
  | str s =>
    have hs : s = "" := by
      apply str_eq_empty_of_length_zero
      simp [nonNullNonEmpty] at h
      omega
    subst hs
    rfl
  | num v => simp [nonNullNonEmpty] at h
  | bool b => simp [nonNullNonEmpty] at h

theorem all_parse_filter (l : List Cell) :
    l.all (fun c => !nonNullNonEmpty c || (toNumericCell c).isSome) =
      (l.filter nonNullNonEmpty).all (fun c => (toNumericCell c).isSome) := by
  induction l with
  | nil => rfl
  | cons c cs ih =>
    cases hc : nonNullNonEmpty c
    · rw [List.all_cons, List.filter_cons_of_neg (by simp [hc]), hc]
      simp only [Bool.not_false, Bool.true_or, Bool.true_and]
      exact ih
    · rw [List.all_cons, List.filter_cons_of_pos hc, List.all_cons, hc]
      simp only [Bool.not_true, Bool.false_or]
      rw [ih]

theorem isNumericDtype_false_of_textual (d : Dtype)
    (h : isTextualDtype d = true) : isNumericDtype d = false := by
  cases d <;> simp_all [isTextualDtype, isNumericDtype]

theorem refine_textual_cells (col : Column) (h : isTextualDtype col.dtype = true) :
    (refineColumn col).cells = col.cells ∧
      isNumericDtype (refineColumn col).dtype = false := by
  cases hd : col.dtype
  case object =>
    simp only [refineColumn, hd]
    constructor
    · split
      · rfl
      · split <;> rfl
    · split
      · rfl
      · split
        · rfl
        · rw [hd]
          rfl
  case text =>
    simp [refineColumn, hd, isNumericDtype]
  all_goals rw [hd] at h; simp [isTextualDtype] at h

theorem coerceColumn_unchanged_of_not_all_parse (col : Column)
    (h : countedAllParse col = false) : coerceColumn col = col := by
  unfold coerceColumn
  split
  · split
    · rw [h]
      rfl
    · rfl
  · rfl

theorem coerceColumn_unchanged_of_no_counted (col : Column)
    (h : hasCounted col = false) : coerceColumn col = col := by
  unfold coerceColumn
  split
  · rw [h]
    rfl
  · rfl

theorem coerceColumn_adopted (col : Column) (ht : isTextualDtype col.dtype = true)
    (hc : hasCounted col = true) (hp : countedAllParse col = true) :
    coerceColumn col =
      (if (col.cells.map coerceCell).all cellIsIntCell then
        { col with dtype := Dtype.int64, cells := col.cells.map coerceCell }
      else
        { col with
            dtype := Dtype.float64
            cells := (col.cells.map coerceCell).map floatify }) := by
  unfold coerceColumn
  rw [ht, hc, hp]
  rfl

/-! ## Claim theorems -/

/-- C1, counterexample to the claim as stated: in the column `["NaN cell"]`
every non-missing, non-empty cell parses (vacuously — there are none), yet
the coercion heuristic does not adopt a numeric reinterpretation: the
column stays textual.  The "if" direction of the claimed iff fails. -/
theorem coercion_iff_counterexample :
    isTextualDtype Dtype.object = true ∧
    countedAllParse ⟨"c", Dtype.object, [Cell.missing]⟩ = true ∧
    coerceColumn ⟨"c", Dtype.object, [Cell.missing]⟩ = ⟨"c", Dtype.object, [Cell.missing]⟩ ∧
    coerce_numeric_columns [⟨"c", Dtype.object, [Cell.missing]⟩] =
      [⟨"c", Dtype.text, [Cell.missing]⟩] ∧
    isNumericDtype Dtype.text = false ∧ isNumericDtype Dtype.object = false := by
  decide

/-- C1 (amended): for a column stored as text, the coercion heuristic
adopts a numeric reinterpretation if and only if the column has at least
one non-missing, non-empty cell and every such cell parses as a number;
if at least one such cell fails to parse, the column is left as text with
all its values unchanged (no partial, per-cell conversion). -/
theorem coercion_all_or_nothing_amended (col : Column)
    (h : isTextualDtype col.dtype = true) :
    ((hasCounted col = true ∧ countedAllParse col = true) →
       isNumericDtype (coerceColumn col).dtype = true) ∧
    (isNumericDtype (coerceColumn col).dtype = true →
       hasCounted col = true ∧ countedAllParse col = true) ∧
    (countedAllParse col = false →
       coerceColumn col = col ∧
       (refineColumn (coerceColumn col)).cells = col.cells ∧
       isNumericDtype (refineColumn (coerceColumn col)).dtype = false) := by
  refine ⟨?_, ?_, ?_⟩
  · rintro ⟨hc, hp⟩
    rw [coerceColumn_adopted col h hc hp]
    split <;> rfl
  · intro hnum
    cases hcnt : hasCounted col
    · rw [coerceColumn_unchanged_of_no_counted col hcnt,
        isNumericDtype_false_of_textual col.dtype h] at hnum
      simp at hnum
    · cases hp : countedAllParse col
      · rw [coerceColumn_unchanged_of_not_all_parse col hp,
          isNumericDtype_false_of_textual col.dtype h] at hnum
        simp at hnum
      · exact ⟨rfl, rfl⟩
  · intro hp
    have he : coerceColumn col = col := coerceColumn_unchanged_of_not_all_parse col hp
    rw [he]
    exact ⟨rfl, (refine_textual_cells col h).1, (refine_textual_cells col h).2⟩

theorem coercion_all_or_nothing_amended_witness :
    coerceColumn ⟨"c", Dtype.object, [Cell.str "1", Cell.str "x"]⟩ =
      ⟨"c", Dtype.object, [Cell.str "1", Cell.str "x"]⟩ :=
  ((coercion_all_or_nothing_amended ⟨"c", Dtype.object, [Cell.str "1", Cell.str "x"]⟩
      (by decide)).2.2 (by decide)).1

/-- C2: missing/empty cells do not count against the all-must-parse rule
(the decision is the same as on the filtered, counted cells alone), under
adoption every originally missing/empty cell comes out missing (null), and
the scenario `["1","","3"]` yields an integer column with a null middle
cell. -/
theorem missing_cells_neutral (col : Column) (h : isTextualDtype col.dtype = true) :
    (countedAllParse col =
      (col.cells.filter nonNullNonEmpty).all (fun c => (toNumericCell c).isSome)) ∧
    (isNumericDtype (coerceColumn col).dtype = true →
      ∀ (i : Nat) (c : Cell), col.cells[i]? = some c → nonNullNonEmpty c = false →
        (coerceColumn col).cells[i]? = some Cell.missing) ∧
    coerce_numeric_columns [⟨"c", Dtype.object, [Cell.str "1", Cell.str "", Cell.str "3"]⟩] =
      [⟨"c", Dtype.int64, [Cell.num (PyNum.intv 1), Cell.missing, Cell.num (PyNum.intv 3)]⟩] := by
  refine ⟨all_parse_filter col.cells, ?_, by decide⟩
  intro hnum i c hi hc
  have hmiss : coerceCell c = Cell.missing := by
    simp [coerceCell, toNumericCell_eq_none_of_not_counted c hc]
  cases hcnt : hasCounted col
  · rw [coerceColumn_unchanged_of_no_counted col hcnt,
      isNumericDtype_false_of_textual col.dtype h] at hnum
    simp at hnum
  · cases hp : countedAllParse col
    · rw [coerceColumn_unchanged_of_not_all_parse col hp,
        isNumericDtype_false_of_textual col.dtype h] at hnum
      simp at hnum
    · rw [coerceColumn_adopted col h hcnt hp]
      split
      · simp [List.getElem?_map, hi, hmiss]
      · simp [List.getElem?_map, hi, hmiss, floatify]

theorem missing_cells_neutral_witness :
    coerce_numeric_columns [⟨"c", Dtype.object, [Cell.str "1", Cell.str "", Cell.str "3"]⟩] =
      [⟨"c", Dtype.int64, [Cell.num (PyNum.intv 1), Cell.missing, Cell.num (PyNum.intv 3)]⟩] :=
  (missing_cells_neutral ⟨"c", Dtype.object, [Cell.str "1"]⟩ (by decide)).2.2

/-- C9: a text column in which every cell is missing or empty is never
promoted by the coercion heuristic — it is returned unchanged — and the
refinement keeps its values and leaves it non-numeric. -/
theorem all_empty_column_not_promoted (col : Column) (h : hasCounted col = false) :
    coerceColumn col = col ∧
    (isTextualDtype col.dtype = true →
      (refineColumn col).cells = col.cells ∧
      isNumericDtype (refineColumn col).dtype = false) :=
  ⟨coerceColumn_unchanged_of_no_counted col h,
   fun ht => refine_textual_cells col ht⟩

theorem all_empty_column_not_promoted_witness :
    coerceColumn ⟨"c", Dtype.object, [Cell.missing, Cell.str ""]⟩ =
      ⟨"c", Dtype.object, [Cell.missing, Cell.str ""]⟩ :=
  (all_empty_column_not_promoted ⟨"c", Dtype.object, [Cell.missing, Cell.str ""]⟩
    (by decide)).1

theorem cellCompat_float_coerced (c : Cell) :
    cellCompat Dtype.float64 (floatify (coerceCell c)) = true := by
  cases hc : toNumericCell c <;> simp [coerceCell, hc, floatify, cellCompat]

theorem cellCompat_int_of_intCell (c : Cell) (h : cellIsIntCell c = true) :
    cellCompat Dtype.int64 c = true := by
  cases c with
  | num v =>
    cases v with
    | intv n => simp [cellCompat, PyNum.toRat]
    | floatv q => simp [cellIsIntCell] at h
  | missing => rfl
  | str s => simp [cellIsIntCell] at h
  | bool b => simp [cellIsIntCell] at h

theorem cellCompat_int_of_intValued (c : Cell) (h : cellIsIntValued c = true) :
    cellCompat Dtype.int64 (intifyCell c) = true := by
  cases c with
  | num v => simp [intifyCell, cellCompat, PyNum.toRat]
  | missing => rfl
  | str s => simp [cellIsIntValued] at h
  | bool b => simp [cellIsIntValued] at h

theorem coerceColumn_wellTyped (col : Column) (h : colWellTyped col = true) :
    colWellTyped (coerceColumn col) = true := by
  cases ht : isTextualDtype col.dtype
  · unfold coerceColumn
    rw [ht]
    simpa using h
  · cases hc : hasCounted col
    · rw [coerceColumn_unchanged_of_no_counted col hc]
      exact h
    · cases hp : countedAllParse col
      · rw [coerceColumn_unchanged_of_not_all_parse col hp]
        exact h
      · rw [coerceColumn_adopted col ht hc hp]
        split
        case isTrue hall =>
          simp only [colWellTyped, List.all_eq_true] at hall ⊢
          intro x hx
          exact cellCompat_int_of_intCell x (hall x hx)
        case isFalse hall =>
          simp only [colWellTyped, List.all_eq_true]
          intro x hx
          obtain ⟨y, hy, rfl⟩ := List.mem_map.mp hx
          obtain ⟨z, hz, rfl⟩ := List.mem_map.mp hy
          exact cellCompat_float_coerced z

theorem refineColumn_wellTyped (col : Column) (h : colWellTyped col = true) :
    colWellTyped (refineColumn col) = true := by
  cases hd : col.dtype
  case float64 =>
    simp only [refineColumn, hd]
    split
    case isTrue hall =>
      simp only [colWellTyped, List.all_eq_true] at hall ⊢
      intro x hx
      obtain ⟨y, hy, rfl⟩ := List.mem_map.mp hx
      exact cellCompat_int_of_intValued y (hall y hy)
    case isFalse => exact h
  case object =>
    simp only [refineColumn, hd]
    split
    case isTrue hcond =>
      simp only [colWellTyped, List.all_eq_true]
      intro x hx
      have hb := (List.all_eq_true.mp (Bool.and_elim_left hcond)) x hx
      cases x <;> simp_all [cellCompat]
    case isFalse =>
      split
      case isTrue hcond =>
        simp only [colWellTyped, List.all_eq_true]
        intro x hx
        have hb := (List.all_eq_true.mp hcond) x hx
        cases x <;> simp_all [cellCompat]
      case isFalse => exact h
  all_goals simp only [refineColumn, hd]; exact h

/-- C7: the coercion-plus-refinement pass is deterministic (equal inputs
give equal outputs) and conservative: starting from well-typed columns it
never assigns a column a dtype incompatible with any value the column
contains. -/
theorem coercion_deterministic_conservative :
    (∀ df1 df2 : DataFrame, df1 = df2 →
       coerce_numeric_columns df1 = coerce_numeric_columns df2) ∧
    (∀ df : DataFrame, (∀ col ∈ df, colWellTyped col = true) →
       ∀ col ∈ coerce_numeric_columns df, colWellTyped col = true) := by
  constructor
  · intro df1 df2 h
    rw [h]
  · intro df hdf col hcol
    simp only [coerce_numeric_columns, List.mem_map] at hcol
    obtain ⟨c1, ⟨c0, hc0, rfl⟩, rfl⟩ := hcol
    exact refineColumn_wellTyped _ (coerceColumn_wellTyped _ (hdf c0 hc0))

theorem coercion_deterministic_conservative_witness :
    colWellTyped ⟨"a", Dtype.int64, [Cell.num (PyNum.intv 1)]⟩ = true :=
  coercion_deterministic_conservative.2 [⟨"a", Dtype.object, [Cell.str "1"]⟩]
    (by decide) _ (by decide)

theorem write_sqlite_some (fs : FS) (df : DataFrame) (p t : String) :
    write_sqlite fs df p t =
      some (setDb (makedirs fs (makedirsTarget p)) p
        (setTable (getDb (makedirs fs (makedirsTarget p)) p) t (mkTable df))) := by
  simp [write_sqlite, connectOk, makedirs]

theorem getDb_setDb (fs : FS) (p : String) (db : Db) : getDb (setDb fs p db) p = db := by
  simp [getDb, setDb, List.find?]

theorem getTable_setTable (db : Db) (t : String) (tbl : SqliteTable) :
    getTable (setTable db t tbl) t = some tbl := by
  simp [getTable, setTable, List.find?]

theorem mainRun_success (w : World) (args : Args) (h : pathExists w args.csv_path = true) :
    mainRun w args =
      { exitCode := 0,
        fs := setDb (makedirs w.fs (makedirsTarget args.db_path)) args.db_path
          (setTable (getDb (makedirs w.fs (makedirsTarget args.db_path)) args.db_path)
            args.table_name (mkTable (load_csv w args.csv_path))) } := by
  rw [mainRun]
  rw [h]
  rw [write_sqlite_some]
  rfl

theorem mainRun_getTable (w : World) (args : Args) (h : pathExists w args.csv_path = true) :
    getTable (getDb (mainRun w args).fs args.db_path) args.table_name =
      some (mkTable (load_csv w args.csv_path)) := by
  rw [mainRun_success w args h]
  rw [getDb_setDb, getTable_setTable]

/-- C3: on every successful run the written table can be read back, its
row count equals the dataframe's row count, and its declared column names
are the dataframe's column names in original order. -/
theorem roundtrip_schema_rowcount (w : World) (args : Args)
    (h : pathExists w args.csv_path = true) :
    ∃ t, getTable (getDb (mainRun w args).fs args.db_path) args.table_name = some t ∧
      tableRowCount t = dfRowCount (load_csv w args.csv_path) ∧
      tableColNames t = (load_csv w args.csv_path).map Column.name := by
  refine ⟨mkTable (load_csv w args.csv_path), mainRun_getTable w args h, ?_, ?_⟩
  · simp [tableRowCount, mkTable]
  · simp [tableColNames, mkTable]

theorem roundtrip_schema_rowcount_witness :
    ∃ t, getTable (getDb (mainRun
        ⟨[("in.csv", [⟨"a", Dtype.object, [Cell.str "1"]⟩])], ⟨[], []⟩⟩
        ⟨"in.csv", "out/p.db", "plays"⟩).fs "out/p.db") "plays" = some t ∧
      tableRowCount t = dfRowCount (load_csv
        ⟨[("in.csv", [⟨"a", Dtype.object, [Cell.str "1"]⟩])], ⟨[], []⟩⟩ "in.csv") ∧
      tableColNames t = (load_csv
        ⟨[("in.csv", [⟨"a", Dtype.object, [Cell.str "1"]⟩])], ⟨[], []⟩⟩ "in.csv").map
        Column.name :=
  roundtrip_schema_rowcount _ _ (by decide)

/-- C5: if the input file does not exist, the run terminates abnormally
(exit code 1) with the file system untouched — no output file is created;
when the input exists, the run terminates normally with exit code 0. -/
theorem exit_behavior (w : World) (args : Args) :
    (pathExists w args.csv_path = false →
       mainRun w args = { exitCode := 1, fs := w.fs }) ∧
    (pathExists w args.csv_path = true → (mainRun w args).exitCode = 0) := by
  constructor
  · intro h
    rw [mainRun, h]
    rfl
  · intro h
    rw [mainRun_success w args h]

theorem exit_behavior_witness :
    mainRun ⟨[], ⟨[], []⟩⟩ defaultArgs = { exitCode := 1, fs := ⟨[], []⟩ } ∧
    (mainRun ⟨[("team_data_combined/plays.csv", [⟨"a", Dtype.object, [Cell.str "1"]⟩])],
        ⟨[], []⟩⟩ defaultArgs).exitCode = 0 :=
  ⟨(exit_behavior ⟨[], ⟨[], []⟩⟩ defaultArgs).1 (by decide),
   (exit_behavior ⟨[("team_data_combined/plays.csv", [⟨"a", Dtype.object, [Cell.str "1"]⟩])],
      ⟨[], []⟩⟩ defaultArgs).2 (by decide)⟩

/-- C6: running the import twice against the same input with the replace
policy yields an identical final table — the table after the second run
equals the table after the first, namely the table built from the coerced
input. -/
theorem replace_idempotent (w : World) (args : Args)
    (h : pathExists w args.csv_path = true) :
    getTable (getDb (mainRun { w with fs := (mainRun w args).fs } args).fs args.db_path)
        args.table_name =
      getTable (getDb (mainRun w args).fs args.db_path) args.table_name ∧
    getTable (getDb (mainRun w args).fs args.db_path) args.table_name =
      some (mkTable (load_csv w args.csv_path)) := by
  have h2 : pathExists { w with fs := (mainRun w args).fs } args.csv_path = true := h
  rw [mainRun_getTable _ args h2, mainRun_getTable w args h]
  exact ⟨rfl, rfl⟩

theorem replace_idempotent_witness :
    getTable (getDb (mainRun ⟨[("in.csv", [⟨"a", Dtype.object, [Cell.str "1"]⟩])],
        (mainRun ⟨[("in.csv", [⟨"a", Dtype.object, [Cell.str "1"]⟩])], ⟨[], []⟩⟩
          ⟨"in.csv", "out/p.db", "plays"⟩).fs⟩ ⟨"in.csv", "out/p.db", "plays"⟩).fs "out/p.db")
        "plays" =
      getTable (getDb (mainRun ⟨[("in.csv", [⟨"a", Dtype.object, [Cell.str "1"]⟩])], ⟨[], []⟩⟩
        ⟨"in.csv", "out/p.db", "plays"⟩).fs "out/p.db") "plays" :=
  (replace_idempotent ⟨[("in.csv", [⟨"a", Dtype.object, [Cell.str "1"]⟩])], ⟨[], []⟩⟩
    ⟨"in.csv", "out/p.db", "plays"⟩ (by decide)).1

/-- C8: `write_sqlite` creates the missing parent directories of the
destination before opening it: even when the parent directory did not
exist beforehand, the write succeeds, and afterwards the parent directory
exists. -/
theorem makedirs_before_open (fs : FS) (df : DataFrame) (p t : String)
    (_h : fs.dirs.contains (makedirsTarget p) = false) :
    ∃ fs1, write_sqlite fs df p t = some fs1 ∧
      fs1.dirs.contains (makedirsTarget p) = true := by
  refine ⟨_, write_sqlite_some fs df p t, ?_⟩
  simp [setDb, makedirs]

theorem makedirs_before_open_witness :
    ∃ fs1, write_sqlite ⟨[], []⟩ [] "out/p.db" "plays" = some fs1 ∧
      fs1.dirs.contains (makedirsTarget "out/p.db") = true :=
  makedirs_before_open ⟨[], []⟩ [] "out/p.db" "plays" (by decide)

/-- C4: the writer maps integer columns to the integer storage class,
floating-point columns to real, and text, boolean, and unset/object
columns to text; every missing cell is written as the null marker; the
written schema applies this mapping column-wise. -/
theorem storage_class_mapping :
    sqlTypeOfDtype Dtype.int64 = SqlType.integer ∧
    sqlTypeOfDtype Dtype.float64 = SqlType.real ∧
    sqlTypeOfDtype Dtype.text = SqlType.text ∧
    sqlTypeOfDtype Dtype.boolean = SqlType.text ∧
    sqlTypeOfDtype Dtype.object = SqlType.text ∧
    sqlValueOfCell Cell.missing = SqlValue.null ∧
    ∀ df : DataFrame,
      (mkTable df).schema = df.map (fun c => (c.name, sqlTypeOfDtype c.dtype)) :=
  ⟨rfl, rfl, rfl, rfl, rfl, rfl, fun _ => rfl⟩

theorem set_append_singleton {α : Type} (l : List α) (a b : α) :
    (l ++ [a]).set l.length b = l ++ [b] := by
  induction l with
  | nil => rfl
  | cons x xs ih => simp [ih]

theorem coerceProg_dfs (h : Heap) (i : Nat) :
    (coerceProg h i).1.dfs = h.dfs ++ [coerce_numeric_columns (h.dfs.getD i [])] := by
  have hinner : (h.dfs ++ [h.dfs.getD i []]).getD h.dfs.length [] = h.dfs.getD i [] := by
    simp [List.getElem?_concat_length]
  simp only [coerceProg, dfCopy, heapSet, hinner]
  exact set_append_singleton h.dfs (h.dfs.getD i []) _

/-- C10: the coercion pass does not mutate its input: run on a heap, it
copies the argument dataframe into a fresh slot, every pre-existing slot —
the argument included — is unchanged afterwards, and the returned fresh
slot holds the coerced copy. -/
theorem coerce_no_mutation (h : Heap) (i : Nat) (_hi : i < h.dfs.length) :
    (∀ k : Nat, k < h.dfs.length → ((coerceProg h i).1.dfs)[k]? = h.dfs[k]?) ∧
    (coerceProg h i).2 = h.dfs.length ∧
    ((coerceProg h i).1.dfs)[h.dfs.length]? =
      some (coerce_numeric_columns (h.dfs.getD i [])) := by
  refine ⟨?_, rfl, ?_⟩
  · intro k hk
    rw [coerceProg_dfs]
    exact List.getElem?_append_left hk
  · rw [coerceProg_dfs]
    exact List.getElem?_concat_length _ _

theorem coerce_no_mutation_witness :
    ((coerceProg ⟨[[⟨"a", Dtype.object, [Cell.str "1"]⟩]]⟩ 0).1.dfs)[0]? =
      some [⟨"a", Dtype.object, [Cell.str "1"]⟩] :=
  ((coerce_no_mutation ⟨[[⟨"a", Dtype.object, [Cell.str "1"]⟩]]⟩ 0 (by decide)).1 0
    (by decide)).trans (by decide)
